import Mathlib

/-!
# Verification of the CT-console planning and workflow core

Shallow embedding of the planning geometry engine (`ScoutViewer.tsx`,
`handleMouseDown` / `handleMouseMove` / `loadScout`) and of the exam workflow
state machine spread over `LeftControlPanel.tsx` and the layout component
(`src/unnamed/part_000`, `SimTomLayoutInner`).

Modelling conventions:
* JavaScript numbers are modelled as exact rationals (`ℚ`); every operation the
  claims touch is order-and-affine arithmetic far from floating-point noise.
* `Math.round` is `jsRound` (floor of `x + 1/2`, JavaScript half-up rounding).
* React state spread over the three components is collected in one record
  `SimState`; each operator/pointer event is an `Event`, and `step` performs
  the synchronous state updates plus the `useEffect` reactions that the event
  deterministically triggers (scout reload on refresh-token change, the
  planning-data notification effect, the per-case resets).
* Collaborator calls (`savePlanning`, `applyReconstruction`, `getScoutImage`)
  are fire-and-forget or awaited promises; their outcomes enter as Boolean
  event parameters (`persistOk`, `reconOk`, `ok`).
* `Date.now()` values are arbitrary positive numbers; only positivity of the
  refresh token is ever observed, so the token set by `handlePlanningEnd` is
  modelled as `1`.
-/

set_option autoImplicit false

namespace SimTom

/-- FOV rectangle in scout-image pixel space (`planning.fov` in
`ScoutViewer.tsx`). -/
structure Fov where
  x_min : ℚ
  x_max : ℚ
  y_min : ℚ
  y_max : ℚ
deriving DecidableEq, Repr

/-- Planning lines plus FOV box (the `planning` state of `ScoutViewer`). -/
structure PlanningLines where
  startY : ℚ
  endY : ℚ
  fov : Fov
deriving DecidableEq, Repr

/-- The layout-level `planningData` record: every field optional, exactly as
the TypeScript type in `SimTomLayoutInner` / `LeftControlPanel`. -/
structure PlanningData where
  z_pixel_start : Option ℚ
  z_pixel_end : Option ℚ
  scout_height_px : Option ℚ
  fov : Option Fov
deriving DecidableEq, Repr

/-- Dimensions of a scout image (`scoutSize` in `ScoutViewer`). -/
structure Frame where
  width : ℚ
  height : ℚ
deriving DecidableEq, Repr

/-- Scan playback progress (`scanState` in the layout component). -/
structure ScanState where
  isScanning : Bool
  currentSlice : Nat
  totalSlices : Nat
deriving DecidableEq, Repr

/-- The container's bounding client rect used for display→image scaling. -/
structure Rect where
  left : ℚ
  top : ℚ
  width : ℚ
  height : ℚ
deriving DecidableEq, Repr

/-- A pointer event's client coordinates. -/
structure Pointer where
  clientX : ℚ
  clientY : ℚ
deriving DecidableEq, Repr

/-- The drag anchor captured at pointer-down (`dragStartRef.current`): the
pointer's `clientY` and a snapshot of the session values being dragged. -/
structure Anchor where
  y : ℚ
  startY : ℚ
  endY : ℚ
  fov : Fov
deriving DecidableEq, Repr

/-- Drag handles, one per string tag of `ScoutViewer`'s `dragging` state. -/
inductive Handle where
  | hStart
  | hEnd
  | hFov
  | hFovTop
  | hFovBottom
  | hFovLeft
  | hFovRight
deriving DecidableEq, Repr

/-- JavaScript `Math.round`: round half up. -/
def jsRound (q : ℚ) : ℚ := ((⌊q + 1/2⌋ : ℤ) : ℚ)

/-- Default planning geometry from `loadScout`: lines at 20% and 80% of the
image height, FOV inset by 20% of the width on each side, FOV vertical extent
equal to the lines. -/
def defaultPlanning (f : Frame) : PlanningLines :=
  let defaultStartY := jsRound (f.height * (2/10))
  let defaultEndY := jsRound (f.height * (8/10))
  let defaultFovMargin := jsRound (f.width * (2/10))
  { startY := defaultStartY
    endY := defaultEndY
    fov := { x_min := defaultFovMargin
             x_max := f.width - defaultFovMargin
             y_min := defaultStartY
             y_max := defaultEndY } }

/-- The `dragging === 'start'` branch of `handleMouseMove`, factored over the
raw candidate `newStartY` input (`dragStartRef.current.startY + deltaY`):
clamp to `[0, live.endY - 20]`, update the line and sync `fov.y_min`. -/
def moveStartLine (raw : ℚ) (pl : PlanningLines) : PlanningLines :=
  let newStartY := max 0 (min raw (pl.endY - 20))
  { pl with startY := newStartY, fov := { pl.fov with y_min := newStartY } }

/-- The `dragging === 'end'` branch of `handleMouseMove`, factored over the
raw candidate (`dragStartRef.current.endY + deltaY`): clamp to
`[live.startY + 20, frameHeight]`, update the line and sync `fov.y_max`. -/
def moveEndLine (raw frameHeight : ℚ) (pl : PlanningLines) : PlanningLines :=
  let newEndY := min frameHeight (max raw (pl.startY + 20))
  { pl with endY := newEndY, fov := { pl.fov with y_max := newEndY } }

/-- `handleMouseMove` of `ScoutViewer.tsx`: per-axis display→image scaling,
then one branch per drag handle, exactly as in the source.  `pl` is the live
`planning` state and `a` the anchor captured at pointer-down. -/
def movePlanning (size : Frame) (rect : Rect) (p : Pointer) (a : Anchor)
    (h : Handle) (pl : PlanningLines) : PlanningLines :=
  let scaleY := size.height / rect.height
  let scaleX := size.width / rect.width
  let deltaY := (p.clientY - a.y) * scaleY
  let deltaX := (p.clientX - rect.left) * scaleX
  let currentY := (p.clientY - rect.top) * scaleY
  match h with
  | .hStart => moveStartLine (a.startY + deltaY) pl
  | .hEnd => moveEndLine (a.endY + deltaY) size.height pl
  | .hFov =>
      let fovWidth := a.fov.x_max - a.fov.x_min
      let fovHeight := a.fov.y_max - a.fov.y_min
      let newXMin := max 0 (min (deltaX - fovWidth / 2) (size.width - fovWidth))
      let newYMin := max 0 (min (currentY - fovHeight / 2) (size.height - fovHeight))
      { pl with fov := { x_min := newXMin
                         x_max := newXMin + fovWidth
                         y_min := newYMin
                         y_max := newYMin + fovHeight } }
  | .hFovLeft =>
      let newXMin := max 0 (min deltaX (pl.fov.x_max - 20))
      { pl with fov := { pl.fov with x_min := newXMin } }
  | .hFovRight =>
      let newXMax := min size.width (max deltaX (pl.fov.x_min + 20))
      { pl with fov := { pl.fov with x_max := newXMax } }
  | .hFovTop =>
      let newYMin := max 0 (min currentY (pl.fov.y_max - 20))
      { pl with startY := newYMin, fov := { pl.fov with y_min := newYMin } }
  | .hFovBottom =>
      let newYMax := min size.height (max currentY (pl.fov.y_min + 20))
      { pl with endY := newYMax, fov := { pl.fov with y_max := newYMax } }

/-- The invariant claimed for the line clamp:
`0 <= startY <= endY - 20 <= frameHeight - 20`. -/
def linesInvariant (pl : PlanningLines) (frameHeight : ℚ) : Prop :=
  0 ≤ pl.startY ∧ pl.startY ≤ pl.endY - 20 ∧ pl.endY - 20 ≤ frameHeight - 20

instance (pl : PlanningLines) (frameHeight : ℚ) :
    Decidable (linesInvariant pl frameHeight) := by
  unfold linesInvariant; infer_instance

/-- The FOV's vertical extent mirrors the z-range. -/
def fovSynced (pl : PlanningLines) : Prop :=
  pl.fov.y_min = pl.startY ∧ pl.fov.y_max = pl.endY

instance (pl : PlanningLines) : Decidable (fovSynced pl) := by
  unfold fovSynced; infer_instance

/-- Modelled from the spec: the DragController pointer-move derivation —
"computes `scale = frame.size / displayRect.size` per axis, converts the
display-space delta to pixel-space delta, derives a candidate new value for
the dragged quantity from the anchor snapshot plus delta".  For the left FOV
edge the dragged quantity is `fov.x_min`, so this candidate is the anchor's
`x_min` plus the scaled horizontal pointer travel since pointer-down.  It is
compared against what `handleMouseMove` actually computes for that handle. -/
def specFovLeftCandidate (size : Frame) (rect : Rect) (downX moveX : ℚ)
    (a : Anchor) : ℚ :=
  a.fov.x_min + (moveX - downX) * (size.width / rect.width)

/-! ## The workflow state machine

The React state of `SimTomLayoutInner` (`src/unnamed/part_000`), the local
state of `LeftControlPanel.tsx` and the local state of `ScoutViewer.tsx`,
collected into one record, with one `Event` per operator or pointer action
and `step` performing the handler plus the effects it deterministically
triggers. -/

/-- The empty `planningData` object (`{}` in the layout component). -/
def emptyPlanningData : PlanningData := ⟨none, none, none, none⟩

/-- `ScoutViewer`'s initial `planning` state (also restored when the case id
becomes empty). -/
def initPlanning : PlanningLines := ⟨100, 400, ⟨100, 300, 100, 300⟩⟩

/-- The planning-data notification effect of `ScoutViewer`: whenever
`planning` or `scoutSize` change and a scout size is present, the parent's
`planningData` is set to the full (unrounded) snapshot. -/
def snapshotOf (f : Frame) (pl : PlanningLines) : PlanningData :=
  ⟨some pl.startY, some pl.endY, some f.height, some pl.fov⟩

/-- A planning snapshot is well-formed when both z-pixel bounds are present
(the condition `handleEndPlanning` checks before persisting). -/
def wellFormed (pd : PlanningData) : Bool :=
  pd.z_pixel_start.isSome && pd.z_pixel_end.isSome

/-- Combined state of the three components. -/
structure SimState where
  caseId : String
  scoutRefreshToken : Nat
  isPlanningActive : Bool
  scanState : ScanState
  planningData : PlanningData
  scoutCompleted : Bool
  planningCompleted : Bool
  scoutSize : Option Frame
  planning : PlanningLines
  dragging : Option Handle
  dragStart : Anchor
deriving DecidableEq, Repr

/-- `canStartPlanning` of `LeftControlPanel.tsx`. -/
def canStartPlanning (s : SimState) : Bool :=
  s.scoutCompleted && !s.isPlanningActive && !s.planningCompleted

/-- `canEndPlanning` of `LeftControlPanel.tsx`. -/
def canEndPlanning (s : SimState) : Bool := s.isPlanningActive

/-- `canEditRecon` of `LeftControlPanel.tsx`. -/
def canEditRecon (s : SimState) : Bool :=
  s.planningCompleted && !s.scanState.isScanning

/-- `canStartScan` of `LeftControlPanel.tsx`. -/
def canStartScan (s : SimState) : Bool :=
  s.planningCompleted && !s.scanState.isScanning

/-- Operator and pointer events.  Boolean parameters carry the outcome of the
asynchronous collaborator call the handler awaits or fires. -/
inductive Event where
  | scoutScan (ok : Bool) (f : Frame) (now : Nat)
  | startPlanning
  | endPlanning (persistOk : Bool)
  | startScan (reconOk : Bool)
  | stopScan
  | caseChange (newId : String)
  | mouseDown (h : Handle) (clientY : ℚ)
  | mouseMove (rect : Rect) (p : Pointer)
  | mouseUp
deriving DecidableEq, Repr

/-- The scout-reload reaction of `ScoutViewer` when the refresh token becomes
positive with a case selected: re-fetch the case's scout (the same frame as
the one already loaded — the scout of a case is fixed) and reset the planning
geometry to the defaults, updating `planningData` through the notification
effect.  With no frame loaded yet there is nothing to re-fetch. -/
def reloadScout (s : SimState) : SimState :=
  if s.caseId ≠ "" then
    match s.scoutSize with
    | some f =>
        { s with planning := defaultPlanning f
                 planningData := snapshotOf f (defaultPlanning f) }
    | none => s
  else s

/-- One synchronous event step.  Guards mirror the `disabled` conditions of
the buttons and the early returns of the pointer handlers; a guarded-out
event leaves the state unchanged. -/
def step (s : SimState) (e : Event) : SimState :=
  match e with
  | .scoutScan ok f now =>
      if s.scanState.isScanning then s
      else
        let s1 := { s with scoutRefreshToken := now, scoutCompleted := true }
        if ok = true ∧ 0 < now ∧ s.caseId ≠ "" then
          { s1 with scoutSize := some f
                    planning := defaultPlanning f
                    planningData := snapshotOf f (defaultPlanning f) }
        else s1
  | .startPlanning =>
      if canStartPlanning s then { s with isPlanningActive := true } else s
  | .endPlanning persistOk =>
      if canEndPlanning s then
        reloadScout
          { s with
            planningCompleted :=
              s.planningCompleted || (wellFormed s.planningData && persistOk)
            isPlanningActive := false
            scoutRefreshToken := 1 }
      else s
  | .startScan reconOk =>
      if canStartScan s then
        if s.caseId ≠ "" ∧ reconOk = false then s
        else { s with scanState := ⟨true, 0, 0⟩ }
      else s
  | .stopScan => { s with scanState := { s.scanState with isScanning := false } }
  | .caseChange newId =>
      if newId = s.caseId then
        { s with scanState := ⟨false, 0, 0⟩
                 planningData := emptyPlanningData
                 isPlanningActive := false
                 scoutCompleted := false
                 scoutRefreshToken := 0 }
      else
        let s1 := { s with caseId := newId
                           scanState := ⟨false, 0, 0⟩
                           planningData := emptyPlanningData
                           isPlanningActive := false
                           scoutCompleted := false
                           scoutRefreshToken := 0
                           planningCompleted := false }
        if newId = "" then { s1 with scoutSize := none, planning := initPlanning }
        else s1
  | .mouseDown h clientY =>
      if s.isPlanningActive = true ∧ s.scoutSize.isSome = true then
        { s with dragging := some h
                 dragStart := ⟨clientY, s.planning.startY, s.planning.endY, s.planning.fov⟩ }
      else s
  | .mouseMove rect p =>
      match s.dragging, s.scoutSize with
      | some h, some f =>
          let pl := movePlanning f rect p s.dragStart h s.planning
          { s with planning := pl, planningData := snapshotOf f pl }
      | _, _ => s
  | .mouseUp => { s with dragging := none }

/-- The mount state of `SimTomLayoutInner` and its children. -/
def initState : SimState :=
  { caseId := ""
    scoutRefreshToken := 0
    isPlanningActive := false
    scanState := ⟨false, 0, 0⟩
    planningData := emptyPlanningData
    scoutCompleted := false
    planningCompleted := false
    scoutSize := none
    planning := initPlanning
    dragging := none
    dragStart := ⟨0, 0, 0, ⟨100, 300, 100, 300⟩⟩ }

/-- Execute a list of events from the mount state. -/
def run (evs : List Event) : SimState := evs.foldl step initState

/-- States reachable from the mount state. -/
inductive Reachable : SimState → Prop where
  | init : Reachable initState
  | next (s : SimState) (e : Event) : Reachable s → Reachable (step s e)

/-- A short event trace: select case "A", scout it, start planning. -/
def traceA : List Event :=
  [Event.caseChange "A", Event.scoutScan true ⟨800, 1000⟩ 1, Event.startPlanning]

/-- Select case "A", scout it, start planning, then End Planning with a failed
persistence call. -/
def traceFailedEnd : List Event :=
  [Event.caseChange "A", Event.scoutScan true ⟨800, 1000⟩ 1, Event.startPlanning,
   Event.endPlanning false]

/-- Select case "A", scout it, start planning, drag the start line from image
`y = 200` to `y = 300`, then switch to case "B". -/
def traceSwitch : List Event :=
  [Event.caseChange "A", Event.scoutScan true ⟨800, 1000⟩ 1, Event.startPlanning,
   Event.mouseDown .hStart 200, Event.mouseMove ⟨0, 0, 800, 1000⟩ ⟨0, 300⟩,
   Event.caseChange "B"]


/-- Facts that hold in every reachable state: a committed planning phase is
never simultaneously active, scanning implies the planning phase was
committed, and an active planning phase implies a completed scout. -/
def GateInv (s : SimState) : Prop :=
  (s.planningCompleted = true → s.isPlanningActive = false) ∧
  (s.scanState.isScanning = true → s.planningCompleted = true) ∧
  (s.isPlanningActive = true → s.scoutCompleted = true)

lemma reloadScout_planningCompleted (s : SimState) :
    (reloadScout s).planningCompleted = s.planningCompleted := by
  unfold reloadScout
  split
  · split <;> rfl
  · rfl

lemma reloadScout_isPlanningActive (s : SimState) :
    (reloadScout s).isPlanningActive = s.isPlanningActive := by
  unfold reloadScout
  split
  · split <;> rfl
  · rfl

lemma reloadScout_scanState (s : SimState) :
    (reloadScout s).scanState = s.scanState := by
  unfold reloadScout
  split
  · split <;> rfl
  · rfl

lemma reloadScout_scoutCompleted (s : SimState) :
    (reloadScout s).scoutCompleted = s.scoutCompleted := by
  unfold reloadScout
  split
  · split <;> rfl
  · rfl

lemma reloadScout_caseId (s : SimState) :
    (reloadScout s).caseId = s.caseId := by
  unfold reloadScout
  split
  · split <;> rfl
  · rfl

lemma gateInv_step (s : SimState) (e : Event) (ih : GateInv s) :
    GateInv (step s e) := by
  obtain ⟨i1, i2, i3⟩ := ih
  cases e <;>
    simp only [step, GateInv] <;>
    (try split) <;> (try split) <;>
    simp_all [canStartPlanning, canEndPlanning, canStartScan,
      reloadScout_planningCompleted, reloadScout_isPlanningActive,
      reloadScout_scanState, reloadScout_scoutCompleted]

lemma gateInv_reachable {s : SimState} (h : Reachable s) : GateInv s := by
  induction h with
  | init => refine ⟨?_, ?_, ?_⟩ <;> simp [initState]
  | next s e hs ih => exact gateInv_step s e ih

lemma planningCompleted_false_step (s : SimState) (e : Event)
    (hc : s.planningCompleted = false)
    (hne : ∀ ok : Bool, e = Event.endPlanning ok → ok = false) :
    (step s e).planningCompleted = false := by
  cases e
  case endPlanning ok =>
    cases hne ok rfl
    simp only [step]
    split
    · simp [reloadScout_planningCompleted, hc]
    · exact hc
  all_goals
    simp only [step]
    (try split) <;> (try split) <;> simp_all

lemma planningCompleted_false_foldl (evs : List Event) :
    ∀ s : SimState, s.planningCompleted = false →
      (∀ e ∈ evs, ∀ ok : Bool, e = Event.endPlanning ok → ok = false) →
      (List.foldl step s evs).planningCompleted = false := by
  induction evs with
  | nil => intro s h _; simpa using h
  | cons e evs ih =>
      intro s h hall
      simp only [List.foldl_cons]
      exact ih (step s e)
        (planningCompleted_false_step s e h (hall e (List.mem_cons_self e evs)))
        (fun x hx => hall x (List.mem_cons_of_mem e hx))

lemma reachA : Reachable (run traceA) :=
  Reachable.next _ Event.startPlanning
    (Reachable.next _ (Event.scoutScan true ⟨800, 1000⟩ 1)
      (Reachable.next _ (Event.caseChange "A") Reachable.init))

/-- C1: the Start-Scan capability follows `endPlanning` exactly.  In every
run whose `endPlanning` calls (if any) all failed to persist, `canStartScan`
is false — in particular it is false before any `endPlanning`; from any
reachable state where planning is active, an `endPlanning` whose snapshot is
well-formed and whose persistence succeeds makes `canStartScan` true, while
an `endPlanning` that does not persist (failure or ill-formed snapshot)
leaves it false; and a `startScan` that sets `scanning` makes it false the
instant scanning becomes true. -/
theorem C1_canStartScan_lifecycle :
    (∀ evs : List Event,
        (∀ e ∈ evs, ∀ ok : Bool, e = Event.endPlanning ok → ok = false) →
        canStartScan (run evs) = false) ∧
    (∀ s : SimState, Reachable s → s.isPlanningActive = true →
        (wellFormed s.planningData = true →
          canStartScan (step s (Event.endPlanning true)) = true) ∧
        (∀ ok : Bool, (wellFormed s.planningData && ok) = false →
          canStartScan (step s (Event.endPlanning ok)) = false)) ∧
    (∀ s : SimState, canStartScan s = true →
        (step s (Event.startScan true)).scanState.isScanning = true ∧
        canStartScan (step s (Event.startScan true)) = false) := by
  refine ⟨?_, ?_, ?_⟩
  · intro evs hall
    have h := planningCompleted_false_foldl evs initState rfl hall
    simp only [run, canStartScan] at *
    simp [h]
  · intro s hreach hact
    obtain ⟨i1, i2, i3⟩ := gateInv_reachable hreach
    have hcomp : s.planningCompleted = false := by
      cases hcv : s.planningCompleted
      · rfl
      · rw [i1 hcv] at hact; exact absurd hact (by simp)
    have hscan : s.scanState.isScanning = false := by
      cases hsv : s.scanState.isScanning
      · rfl
      · rw [i2 hsv] at hcomp; exact absurd hcomp (by simp)
    constructor
    · intro hwf
      simp [step, canEndPlanning, hact, canStartScan, reloadScout_planningCompleted,
        reloadScout_scanState, hcomp, hscan, hwf]
    · intro ok hok
      simp [step, canEndPlanning, hact, canStartScan, reloadScout_planningCompleted,
        reloadScout_scanState, hcomp, hscan, hok]
  · intro s hcs
    have hc : s.planningCompleted = true ∧ s.scanState.isScanning = false := by
      simpa [canStartScan] using hcs
    constructor
    · simp [step, canStartScan, hc]
    · simp [step, canStartScan, hc]

/-- C1 witness: the capability along the concrete run select-case, scout,
start planning, end planning successfully, start scan. -/
theorem C1_witness :
    canStartScan (run traceA) = false ∧
    canStartScan (step (run traceA) (Event.endPlanning true)) = true ∧
    ((step (step (run traceA) (Event.endPlanning true))
        (Event.startScan true)).scanState.isScanning = true ∧
      canStartScan (step (step (run traceA) (Event.endPlanning true))
        (Event.startScan true)) = false) :=
  ⟨C1_canStartScan_lifecycle.1 traceA (by decide),
   (C1_canStartScan_lifecycle.2.1 (run traceA) reachA (by decide)).1 (by decide),
   C1_canStartScan_lifecycle.2.2 (step (run traceA) (Event.endPlanning true)) (by decide)⟩

/-- C2: collaborator-failure behaviour of the workflow gate.  Every
`endPlanning` from a reachable planning-active state deactivates planning
regardless of the persistence outcome, commits (`planningCompleted = true`)
exactly when the snapshot is well-formed and persistence succeeds, and on a
non-persisting call leaves `canStartPlanning` true so the operator can redo
the planning cycle; `startScan` whose `applyReconstruction` call fails does
not set `scanning`, leaving `canStartScan` true for a retry. -/
theorem C2_failure_keeps_gate_retryable :
    (∀ (s : SimState) (ok : Bool), Reachable s → s.isPlanningActive = true →
        (step s (Event.endPlanning ok)).isPlanningActive = false ∧
        ((step s (Event.endPlanning ok)).planningCompleted = true ↔
          (wellFormed s.planningData = true ∧ ok = true)) ∧
        ((wellFormed s.planningData && ok) = false →
          canStartPlanning (step s (Event.endPlanning ok)) = true)) ∧
    (∀ s : SimState, canStartScan s = true → s.caseId ≠ "" →
        (step s (Event.startScan false)).scanState.isScanning = false ∧
        canStartScan (step s (Event.startScan false)) = true) := by
  constructor
  · intro s ok hreach hact
    obtain ⟨i1, i2, i3⟩ := gateInv_reachable hreach
    have hcomp : s.planningCompleted = false := by
      cases hcv : s.planningCompleted
      · rfl
      · rw [i1 hcv] at hact; exact absurd hact (by simp)
    have hscout : s.scoutCompleted = true := i3 hact
    refine ⟨?_, ?_, ?_⟩
    · simp [step, canEndPlanning, hact, reloadScout_isPlanningActive]
    · simp [step, canEndPlanning, hact, reloadScout_planningCompleted, hcomp]
    · intro hok
      simp [step, canEndPlanning, hact, canStartPlanning,
        reloadScout_planningCompleted, reloadScout_isPlanningActive,
        reloadScout_scoutCompleted, hcomp, hscout, hok]
  · intro s hcs hcase
    have hscan : s.scanState.isScanning = false := by
      simp only [canStartScan, Bool.and_eq_true, Bool.not_eq_eq_eq_not,
        Bool.not_true] at hcs
      exact hcs.2
    have hcond : s.caseId ≠ "" ∧ (false : Bool) = false := ⟨hcase, rfl⟩
    constructor
    · simp [step, hcs, hcond, hscan]
    · simp [step, hcs, hcond]

/-- C2 witness: a failed persistence after the concrete planning run, and a
failed reconstruction from the committed state. -/
theorem C2_witness :
    ((step (run traceA) (Event.endPlanning false)).isPlanningActive = false ∧
     ((step (run traceA) (Event.endPlanning false)).planningCompleted = true ↔
       (wellFormed (run traceA).planningData = true ∧ (false : Bool) = true)) ∧
     ((wellFormed (run traceA).planningData && false) = false →
       canStartPlanning (step (run traceA) (Event.endPlanning false)) = true)) ∧
    ((step (step (run traceA) (Event.endPlanning true))
        (Event.startScan false)).scanState.isScanning = false ∧
     canStartScan (step (step (run traceA) (Event.endPlanning true))
        (Event.startScan false)) = true) :=
  ⟨C2_failure_keeps_gate_retryable.1 (run traceA) false reachA (by decide),
   C2_failure_keeps_gate_retryable.2 (step (run traceA) (Event.endPlanning true))
     (by decide) (by decide)⟩

/-- C3: evaluation of the embedding on the failing trace.  After case "A" is
scouted, planning is started and the start line is dragged from image
`y = 200` to `y = 300`, switching to case "B" resets the workflow facts
(`isPlanningActive`, `scoutCompleted`, `planningCompleted` all false, empty
`planningData`) as the claim states, but `ScoutViewer`'s planning state still
holds case "A"'s dragged line positions, FOV values and scout frame: the
clear-on-case-change effect fires only when the new case id is empty, so the
line/FOV geometry is carried over, contradicting the code's own comment
("Clear scout when case changes — don't show previous case's scout"). -/
theorem C3_case_switch_carries_over_geometry :
    (run traceSwitch).isPlanningActive = false ∧
    (run traceSwitch).scoutCompleted = false ∧
    (run traceSwitch).planningCompleted = false ∧
    (run traceSwitch).planningData = emptyPlanningData ∧
    (run traceSwitch).caseId = "B" ∧
    (run traceSwitch).planning.startY = 300 ∧
    (run traceSwitch).planning.fov = ⟨160, 640, 300, 800⟩ ∧
    (run traceSwitch).scoutSize = some ⟨800, 1000⟩ := by
  simp only [run, traceSwitch, List.foldl_cons, List.foldl_nil]
  simp [step, canStartPlanning, canEndPlanning, canStartScan, movePlanning,
    moveStartLine, defaultPlanning, jsRound, snapshotOf, reloadScout,
    emptyPlanningData, initState, initPlanning, min_def, max_def]
  norm_num

/-- C7 counterexample: after select case "A", scout, start planning, and an
`endPlanning` whose persistence call fails, `canStartPlanning` is already
true again even though no Scout→Plan→Commit cycle completed (nothing was
ever committed) and no case change occurred after planning started — the
claim's "only after" condition is violated by the failed-persistence path. -/
theorem C7_counterexample :
    canStartPlanning (run traceFailedEnd) = true ∧
    (run traceFailedEnd).planningCompleted = false := by
  decide

/-- C7 (amended): `canStartPlanning` is false immediately after a successful
`startPlanning`, and the only events that can turn it from false to true are
a scout acquisition or an `endPlanning` that did not persist (failure or
ill-formed snapshot); in particular a successful commit keeps it false until
a case change and a new scout. -/
theorem C7_canStartPlanning_gate :
    (∀ s : SimState, canStartPlanning s = true →
        canStartPlanning (step s Event.startPlanning) = false) ∧
    (∀ (s : SimState) (e : Event), canStartPlanning s = false →
        canStartPlanning (step s e) = true →
        (∃ ok f now, e = Event.scoutScan ok f now) ∨
        (∃ ok : Bool, e = Event.endPlanning ok ∧
          (wellFormed s.planningData && ok) = false)) := by
  constructor
  · intro s h
    have hc : (s.scoutCompleted = true ∧ s.isPlanningActive = false) ∧
        s.planningCompleted = false := by
      simpa [canStartPlanning] using h
    simp [step, canStartPlanning, hc.1.1, hc.1.2, hc.2]
  · intro s e h1 h2
    cases e with
    | scoutScan ok f now => exact Or.inl ⟨ok, f, now, rfl⟩
    | endPlanning ok =>
        refine Or.inr ⟨ok, rfl, ?_⟩
        by_cases hact : s.isPlanningActive = true
        · simp only [step, canEndPlanning, hact, if_pos, canStartPlanning,
            reloadScout_planningCompleted, reloadScout_isPlanningActive,
            reloadScout_scoutCompleted] at h2
          simp only [Bool.and_eq_true, Bool.not_eq_eq_eq_not, Bool.not_true] at h2
          have := h2.2
          simp only [Bool.or_eq_false_iff] at this
          exact this.2
        · rw [step] at h2
          rw [if_neg (by simpa [canEndPlanning] using hact)] at h2
          exact absurd h2 (by simp [h1])
    | startPlanning =>
        exfalso
        rw [step, if_neg (by simp [h1])] at h2
        exact absurd h2 (by simp [h1])
    | startScan reconOk =>
        exfalso
        simp only [step] at h2
        split_ifs at h2 <;> simp_all [canStartPlanning]
    | stopScan =>
        exfalso
        simp only [step, canStartPlanning] at h2
        simp_all [canStartPlanning]
    | caseChange newId =>
        exfalso
        simp only [step] at h2
        split_ifs at h2 <;> simp_all [canStartPlanning]
    | mouseDown h cy =>
        exfalso
        simp only [step] at h2
        split_ifs at h2 <;> simp_all [canStartPlanning]
    | mouseMove rect p =>
        exfalso
        simp only [step] at h2
        split at h2 <;> simp_all [canStartPlanning]
    | mouseUp =>
        exfalso
        simp only [step, canStartPlanning] at h2
        simp_all [canStartPlanning]

/-- C7 witness: applying the amended theorem at the concrete planning run —
`startPlanning` switches the capability off, and the failed `endPlanning` is
one of the two permitted false-to-true events. -/
theorem C7_witness :
    canStartPlanning
      (step (run [Event.caseChange "A", Event.scoutScan true ⟨800, 1000⟩ 1])
        Event.startPlanning) = false ∧
    ((∃ ok f now, (Event.endPlanning false : Event) = Event.scoutScan ok f now) ∨
     (∃ ok : Bool, (Event.endPlanning false : Event) = Event.endPlanning ok ∧
       (wellFormed (run traceA).planningData && ok) = false)) :=
  ⟨C7_canStartPlanning_gate.1 (run [Event.caseChange "A", Event.scoutScan true ⟨800, 1000⟩ 1])
      (by decide),
   C7_canStartPlanning_gate.2 (run traceA) (Event.endPlanning false) (by decide) (by decide)⟩

/-- C10: a successful scout acquisition with a case selected — at any point
where the Scout-Scan button is enabled, including while planning is active or
after planning completed — re-initializes the planning geometry to the
defaults for the new frame (lines at 20% and 80% of the height, FOV inset by
20% of the width on each side), discarding any operator-adjusted geometry and
refreshing the snapshot, while leaving `isPlanningActive` and
`planningCompleted` unchanged. -/
theorem C10_scout_scan_reinitializes (s : SimState) (f : Frame) (now : Nat)
    (hcase : s.caseId ≠ "") (hnow : 0 < now)
    (hscan : s.scanState.isScanning = false) :
    (step s (Event.scoutScan true f now)).planning = defaultPlanning f ∧
    (step s (Event.scoutScan true f now)).scoutSize = some f ∧
    (step s (Event.scoutScan true f now)).planningData = snapshotOf f (defaultPlanning f) ∧
    (step s (Event.scoutScan true f now)).isPlanningActive = s.isPlanningActive ∧
    (step s (Event.scoutScan true f now)).planningCompleted = s.planningCompleted := by
  simp [step, hscan, hcase, hnow]

/-- C10 witness: a second scout on a new frame while planning is active for
case "A". -/
theorem C10_witness :
    (step (run traceA) (Event.scoutScan true ⟨640, 480⟩ 2)).planning =
      defaultPlanning ⟨640, 480⟩ ∧
    (step (run traceA) (Event.scoutScan true ⟨640, 480⟩ 2)).scoutSize = some ⟨640, 480⟩ ∧
    (step (run traceA) (Event.scoutScan true ⟨640, 480⟩ 2)).planningData =
      snapshotOf ⟨640, 480⟩ (defaultPlanning ⟨640, 480⟩) ∧
    (step (run traceA) (Event.scoutScan true ⟨640, 480⟩ 2)).isPlanningActive =
      (run traceA).isPlanningActive ∧
    (step (run traceA) (Event.scoutScan true ⟨640, 480⟩ 2)).planningCompleted =
      (run traceA).planningCompleted :=
  C10_scout_scan_reinitializes (run traceA) ⟨640, 480⟩ 2 (by decide) (by decide) (by decide)

/-- C4 counterexample: with lines `startY = 0, endY = 10` (gap already below
`MIN_GAP`) and frame height `100`, a start-line move with raw candidate `5`
leaves `startY = 0, endY = 10`, violating `startY <= endY - 20`.  The clamp
never repairs the line that is not being moved, so the claimed property fails
for arbitrary input lines. -/
theorem C4_counterexample :
    ¬ linesInvariant (moveStartLine 5 ⟨0, 10, ⟨100, 300, 100, 300⟩⟩) 100 := by
  norm_num [linesInvariant, moveStartLine, min_def, max_def]

/-- C4 (amended): for every raw input, the start-line and end-line moves
preserve `0 <= startY <= endY - 20 <= frameHeight - 20` whenever the input
lines already satisfy it; the chain does not hold for arbitrary input lines. -/
theorem C4_clamp_preserves_invariant (pl : PlanningLines) (H raw : ℚ)
    (hInv : linesInvariant pl H) :
    linesInvariant (moveStartLine raw pl) H ∧
    linesInvariant (moveEndLine raw H pl) H := by
  obtain ⟨h0, h1, h2⟩ := hInv
  constructor
  · refine ⟨le_max_left _ _, ?_, ?_⟩
    · simp only [moveStartLine]
      exact max_le (by linarith) (min_le_right _ _)
    · simpa [moveStartLine] using h2
  · refine ⟨by simpa [moveEndLine] using h0, ?_, ?_⟩
    · simp only [moveEndLine]
      have hle : pl.startY + 20 ≤ min H (max raw (pl.startY + 20)) :=
        le_min (by linarith) (le_max_right _ _)
      linarith
    · simp only [moveEndLine]
      have hle : min H (max raw (pl.startY + 20)) ≤ H := min_le_left _ _
      linarith

/-- C4 witness: concrete instantiation of the amended preservation theorem. -/
theorem C4_witness :
    linesInvariant ⟨200, 800, ⟨160, 640, 200, 800⟩⟩ 1000 ∧
    (linesInvariant (moveStartLine 5 ⟨200, 800, ⟨160, 640, 200, 800⟩⟩) 1000 ∧
     linesInvariant (moveEndLine 5 1000 ⟨200, 800, ⟨160, 640, 200, 800⟩⟩) 1000) :=
  ⟨by norm_num [linesInvariant],
   C4_clamp_preserves_invariant ⟨200, 800, ⟨160, 640, 200, 800⟩⟩ 1000 5
     (by norm_num [linesInvariant])⟩

/-- C5: on a `800 x 1000` frame, the default reset gives `startY = 200`,
`endY = 800`, `fov = {160, 640, 200, 800}`; from that state, dragging the end
line with raw candidate `190` clamps to `endY = 220` (respecting
`startY + 20`). -/
theorem C5_default_reset_and_end_clamp :
    defaultPlanning ⟨800, 1000⟩ = ⟨200, 800, ⟨160, 640, 200, 800⟩⟩ ∧
    (moveEndLine 190 1000 (defaultPlanning ⟨800, 1000⟩)).endY = 220 := by
  norm_num [defaultPlanning, jsRound, moveEndLine, min_def, max_def]

/-- C6 counterexample: from lines `(200, 800)` on a frame of height `1000`,
a start-line move with raw `900` followed by an end-line move with raw `100`
ends at `(780, 800)`, while the reverse order ends at `(200, 220)` — each
clamp reads the live position of the other line, so the two edits do not
commute for arbitrary raw inputs. -/
theorem C6_counterexample :
    moveEndLine 100 1000 (moveStartLine 900 ⟨200, 800, ⟨160, 640, 200, 800⟩⟩) ≠
    moveStartLine 900 (moveEndLine 100 1000 ⟨200, 800, ⟨160, 640, 200, 800⟩⟩) := by
  norm_num [moveStartLine, moveEndLine, min_def, max_def]

/-- C6 (amended): the start-line and end-line moves commute only when the two
raw targets are jointly legal: both within the frame, separated by at least
the 20-pixel gap, and each compatible with the other line's initial position
(`rawStart <= endY - 20`, `startY + 20 <= rawEnd`).  Under those conditions
both orders converge to the same state, with `startY = rawStart` and
`endY = rawEnd`. -/
theorem C6_commute_when_targets_legal (pl : PlanningLines) (H rS rE : ℚ)
    (h0 : 0 ≤ rS) (h1 : rS + 20 ≤ rE) (h2 : rE ≤ H)
    (h3 : rS ≤ pl.endY - 20) (h4 : pl.startY + 20 ≤ rE) :
    moveEndLine rE H (moveStartLine rS pl) = moveStartLine rS (moveEndLine rE H pl) ∧
    (moveEndLine rE H (moveStartLine rS pl)).startY = rS ∧
    (moveEndLine rE H (moveStartLine rS pl)).endY = rE := by
  have e1 : min rS (pl.endY - 20) = rS := min_eq_left h3
  have e2 : max (0 : ℚ) rS = rS := max_eq_right h0
  have e3 : max rE (rS + 20) = rE := max_eq_left h1
  have e4 : min H rE = rE := min_eq_right h2
  have e5 : max rE (pl.startY + 20) = rE := max_eq_left h4
  have e6 : min rS (rE - 20) = rS := min_eq_left (by linarith)
  simp [moveStartLine, moveEndLine, e1, e2, e3, e4, e5, e6]

/-- C6 witness: concrete instantiation of the amended commutation theorem. -/
theorem C6_witness :
    moveEndLine 700 1000 (moveStartLine 300 ⟨200, 800, ⟨160, 640, 200, 800⟩⟩) =
      moveStartLine 300 (moveEndLine 700 1000 ⟨200, 800, ⟨160, 640, 200, 800⟩⟩) ∧
    (moveEndLine 700 1000 (moveStartLine 300 ⟨200, 800, ⟨160, 640, 200, 800⟩⟩)).startY = 300 ∧
    (moveEndLine 700 1000 (moveStartLine 300 ⟨200, 800, ⟨160, 640, 200, 800⟩⟩)).endY = 700 :=
  C6_commute_when_targets_legal ⟨200, 800, ⟨160, 640, 200, 800⟩⟩ 1000 300 700
    (by norm_num) (by norm_num) (by norm_num) (by norm_num) (by norm_num)

/-- C8 counterexample: from the synchronized default state on a `800 x 1000`
frame, dragging the whole FOV box (`dragging === 'fov'`) with the pointer at
image `y = 100` translates the box to `y_min = 0, y_max = 600` while leaving
`startY = 200, endY = 800` untouched — the FOV-move branch does not update the
z-lines, so the mirror can break on a FOV move as a unit. -/
theorem C8_counterexample :
    fovSynced ⟨200, 800, ⟨160, 640, 200, 800⟩⟩ ∧
    ¬ fovSynced (movePlanning ⟨800, 1000⟩ ⟨0, 0, 800, 1000⟩ ⟨400, 100⟩
      ⟨0, 200, 800, ⟨160, 640, 200, 800⟩⟩ .hFov ⟨200, 800, ⟨160, 640, 200, 800⟩⟩) := by
  norm_num [fovSynced, movePlanning, min_def, max_def]

/-- C8 (amended): the mirror `fov.y_min = startY` and `fov.y_max = endY` is
preserved by every line move and by all four FOV edge resizes, but not by the
FOV move as a unit (see `C8_counterexample`): the 'fov' branch translates the
box's vertical extent without touching the z-lines. -/
theorem C8_sync_preserved_except_fov_move (size : Frame) (rect : Rect)
    (p : Pointer) (a : Anchor) (h : Handle) (pl : PlanningLines)
    (hne : h ≠ .hFov) (hs : fovSynced pl) :
    fovSynced (movePlanning size rect p a h pl) := by
  obtain ⟨h1, h2⟩ := hs
  cases h <;>
    simp_all [movePlanning, moveStartLine, moveEndLine, fovSynced]

/-- C8 witness: concrete instantiation of the amended preservation theorem at
a start-line drag. -/
theorem C8_sync_witness :
    fovSynced (movePlanning ⟨800, 1000⟩ ⟨0, 0, 800, 1000⟩ ⟨400, 100⟩
      ⟨0, 200, 800, ⟨160, 640, 200, 800⟩⟩ .hStart ⟨200, 800, ⟨160, 640, 200, 800⟩⟩) :=
  C8_sync_preserved_except_fov_move ⟨800, 1000⟩ ⟨0, 0, 800, 1000⟩ ⟨400, 100⟩
    ⟨0, 200, 800, ⟨160, 640, 200, 800⟩⟩ .hStart ⟨200, 800, ⟨160, 640, 200, 800⟩⟩
    (by simp) (by norm_num [fovSynced])

/-- C9 counterexample: a left-FOV-edge drag with scale 1, anchor
`fov.x_min = 100`, pointer-down at display `x = 110` and pointer-move to
display `x = 120`.  The code's `handleMouseMove` sets `x_min = 120` (the
absolute pointer position in image space, no clamp binding), while the
anchor-plus-delta derivation described by the claim yields `110` — so not
every handle derives its candidate from the anchor snapshot plus delta. -/
theorem C9_counterexample :
    (movePlanning ⟨800, 1000⟩ ⟨0, 0, 800, 1000⟩ ⟨120, 50⟩
        ⟨50, 100, 300, ⟨100, 300, 100, 300⟩⟩ .hFovLeft
        ⟨100, 300, ⟨100, 300, 100, 300⟩⟩).fov.x_min = 120 ∧
    specFovLeftCandidate ⟨800, 1000⟩ ⟨0, 0, 800, 1000⟩ 110 120
        ⟨50, 100, 300, ⟨100, 300, 100, 300⟩⟩ = 110 ∧
    (120 : ℚ) ≠ 110 := by
  norm_num [movePlanning, specFovLeftCandidate, min_def, max_def]

/-- C9 (amended): during a drag only the start-line and end-line branches
derive the candidate from the anchor snapshot plus the display-scaled delta
(their result depends on the anchor value and the pointer travel only); the
four FOV edge branches ignore the anchor entirely and use the absolute
pointer position in image space, and the FOV-move branch uses the anchor only
for the box's width and height. -/
theorem C9_anchor_usage :
    (∀ (size : Frame) (rect : Rect) (p q : Pointer) (a b : Anchor)
        (pl : PlanningLines), a.startY = b.startY →
        p.clientY - a.y = q.clientY - b.y →
        movePlanning size rect p a .hStart pl = movePlanning size rect q b .hStart pl) ∧
    (∀ (size : Frame) (rect : Rect) (p q : Pointer) (a b : Anchor)
        (pl : PlanningLines), a.endY = b.endY →
        p.clientY - a.y = q.clientY - b.y →
        movePlanning size rect p a .hEnd pl = movePlanning size rect q b .hEnd pl) ∧
    (∀ (size : Frame) (rect : Rect) (p : Pointer) (a b : Anchor)
        (pl : PlanningLines),
        movePlanning size rect p a .hFovLeft pl = movePlanning size rect p b .hFovLeft pl ∧
        movePlanning size rect p a .hFovRight pl = movePlanning size rect p b .hFovRight pl ∧
        movePlanning size rect p a .hFovTop pl = movePlanning size rect p b .hFovTop pl ∧
        movePlanning size rect p a .hFovBottom pl = movePlanning size rect p b .hFovBottom pl) ∧
    (∀ (size : Frame) (rect : Rect) (p : Pointer) (a b : Anchor)
        (pl : PlanningLines),
        a.fov.x_max - a.fov.x_min = b.fov.x_max - b.fov.x_min →
        a.fov.y_max - a.fov.y_min = b.fov.y_max - b.fov.y_min →
        movePlanning size rect p a .hFov pl = movePlanning size rect p b .hFov pl) := by
  refine ⟨?_, ?_, ?_, ?_⟩
  · intro size rect p q a b pl h1 h2
    simp only [movePlanning, h1, h2]
  · intro size rect p q a b pl h1 h2
    simp only [movePlanning, h1, h2]
  · intro size rect p a b pl
    exact ⟨rfl, rfl, rfl, rfl⟩
  · intro size rect p a b pl h1 h2
    simp only [movePlanning, h1, h2]

/-- C9 witness: concrete instantiation of the first conjunct at two different
pointer-down positions with the same travel. -/
theorem C9_witness :
    movePlanning ⟨800, 1000⟩ ⟨0, 0, 800, 1000⟩ ⟨0, 60⟩
        ⟨50, 200, 800, ⟨160, 640, 200, 800⟩⟩ .hStart ⟨200, 800, ⟨160, 640, 200, 800⟩⟩ =
    movePlanning ⟨800, 1000⟩ ⟨0, 0, 800, 1000⟩ ⟨0, 110⟩
        ⟨100, 200, 800, ⟨160, 640, 200, 800⟩⟩ .hStart ⟨200, 800, ⟨160, 640, 200, 800⟩⟩ :=
  C9_anchor_usage.1 ⟨800, 1000⟩ ⟨0, 0, 800, 1000⟩ ⟨0, 60⟩ ⟨0, 110⟩
    ⟨50, 200, 800, ⟨160, 640, 200, 800⟩⟩ ⟨100, 200, 800, ⟨160, 640, 200, 800⟩⟩
    ⟨200, 800, ⟨160, 640, 200, 800⟩⟩ rfl (by norm_num)

end SimTom
